import Mathlib

/-!
# Verification of `bevy_light_2d` (extraction stage and lighting pipeline)

A shallow embedding of the repository's Rust sources:

* `src/light.rs` — the light components (`PointLight2d`, `SpotLight2d`,
  `AmbientLight2d`, the `Light2d` camera marker);
* `src/render/extract.rs` — the per-frame extraction systems that copy visible
  lights/occluders from the main (simulation) world into the render world;
* `src/render/lighting/pipeline.rs` — the lighting pipeline and its
  `specialize` function.

Modelling conventions:

* `f32` scalars are modelled as exact rationals (`Rat`); the claims under
  verification are structural (which records are produced, which fields hold
  which expressions), not about floating-point rounding.
* `u32` is modelled as `Nat` (the only values produced are 0 and 1).
* External engine types (`bevy`'s `Color`, `GlobalTransform`, `ViewVisibility`,
  `RenderEntity`, the GPU descriptor types) are modelled through the narrow
  interface this crate consumes: exactly the fields and methods the sources
  call.
* An ECS query is modelled as a list of result rows; the commands issued by an
  extraction system during one frame form that frame's batch, modelled as the
  list of `(render-entity id, extracted record)` insertions.
-/

namespace BevyLight2d

/-- A 2D vector of scalars (models `glam::Vec2`, component type `f32`). -/
structure Vec2 where
  x : Rat
  y : Rat
deriving DecidableEq, Repr

/-- A 3D vector of scalars (models `glam::Vec3`, component type `f32`). -/
structure Vec3 where
  x : Rat
  y : Rat
  z : Rat
deriving DecidableEq, Repr

/-- Model of `Vec3::xy()` — drop the `z` component. -/
def Vec3.xy (v : Vec3) : Vec2 := ⟨v.x, v.y⟩

/-- Linear-RGBA color (models `bevy_color::LinearRgba`). -/
structure LinearRgba where
  red : Rat
  green : Rat
  blue : Rat
  alpha : Rat
deriving DecidableEq, Repr

/-- Model of `impl Mul<f32> for LinearRgba` in `bevy_color`: scales the red, green and
blue channels and leaves alpha unchanged. -/
def LinearRgba.mulScalar (c : LinearRgba) (s : Rat) : LinearRgba :=
  ⟨c.red * s, c.green * s, c.blue * s, c.alpha⟩

/-- The type `bevy_color::Color` is an external collaborator; the only operation this
crate performs on it is `to_linear()`. A color is therefore modelled by the
linear-RGBA value that `to_linear` returns for it. -/
structure Color where
  linear : LinearRgba
deriving DecidableEq, Repr

/-- Model of `Color::to_linear()` — the conversion of the authored color into the linear
color space. -/
def Color.to_linear (c : Color) : LinearRgba := c.linear

/-- The constant `Color::WHITE`. -/
def Color.WHITE : Color := ⟨⟨1, 1, 1, 1⟩⟩

/-- Models `bevy`'s `ViewVisibility` component: a boolean flag computed by the
engine's culling collaborator, read through `.get()`. -/
structure ViewVisibility where
  visible : Bool
deriving DecidableEq, Repr

/-- Model of `ViewVisibility::get()`. -/
def ViewVisibility.get (v : ViewVisibility) : Bool := v.visible

/-- Models `bevy`'s `GlobalTransform` through the narrow interface the sources
use: only `translation()` is ever called, so the model keeps the world-space
translation. -/
structure GlobalTransform where
  translation : Vec3
deriving DecidableEq, Repr

/-- Models `bevy::render::sync_world::RenderEntity`: the id of the render-world
entity mirroring a main-world entity, read through `.id()`. -/
structure RenderEntity where
  entity : Nat
deriving DecidableEq, Repr

/-- Model of `RenderEntity::id()`. -/
def RenderEntity.id (r : RenderEntity) : Nat := r.entity

/-- The f32 value of `std::f32::consts::PI` (13176795 × 2⁻²²), used by
`f32::to_radians`. -/
def f32Pi : Rat := 13176795 / 4194304

/-- Model of `f32::to_radians`: multiply by π / 180. -/
def toRadians (x : Rat) : Rat := x * f32Pi / 180

/-- Polynomial stand-in for the external math library's `cos` (the claims under
verification depend only on `Vec2::from_angle` being a fixed function of the
radian angle, never on its numeric value). -/
def cosApprox (x : Rat) : Rat := 1 - x ^ 2 / 2 + x ^ 4 / 24 - x ^ 6 / 720

/-- Polynomial stand-in for the external math library's `sin` (see
`cosApprox`). -/
def sinApprox (x : Rat) : Rat := x - x ^ 3 / 6 + x ^ 5 / 120 - x ^ 7 / 5040

/-- Model of `glam::Vec2::from_angle(θ)` — the unit vector `(cos θ, sin θ)`. -/
def Vec2.from_angle (θ : Rat) : Vec2 := ⟨cosApprox θ, sinApprox θ⟩

/-! ## `src/light.rs` — the light components -/

/-- The component `AmbientLight2d` (`src/light.rs`): ambient color tint and brightness. -/
structure AmbientLight2d where
  color : Color
  brightness : Rat
deriving DecidableEq, Repr

/-- Model of `impl Default for AmbientLight2d`: white, brightness 1. -/
def AmbientLight2d.default : AmbientLight2d := ⟨Color.WHITE, 1⟩

/-- The component `Light2d` (`src/light.rs`): the camera marker component carrying the
per-view ambient light. -/
structure Light2d where
  ambient_light : AmbientLight2d
deriving DecidableEq, Repr

/-- The component `PointLight2d` (`src/light.rs`). -/
structure PointLight2d where
  color : Color
  intensity : Rat
  radius : Rat
  falloff : Rat
  cast_shadows : Bool
deriving DecidableEq, Repr

/-- Model of `impl Default for PointLight2d`: a 1x1 white point light. -/
def PointLight2d.default : PointLight2d := ⟨Color.WHITE, 1, 1/2, 0, false⟩

/-- The component `SpotLight2d` (`src/light.rs`): all `PointLight2d` fields plus direction,
cone angles (all in degrees) and source width. -/
structure SpotLight2d where
  color : Color
  intensity : Rat
  radius : Rat
  falloff : Rat
  direction : Rat
  inner_angle : Rat
  outer_angle : Rat
  source_width : Rat
  cast_shadows : Bool
deriving DecidableEq, Repr

/-- Model of `impl Default for SpotLight2d`. -/
def SpotLight2d.default : SpotLight2d := ⟨Color.WHITE, 1, 1/2, 0, -90, -180, -90, 1, false⟩

/-- Modelled from the spec: `src/occluder.rs` is not among the provided
sources; §3 of the spec describes an occluder as "a shape (currently:
rectangle with half-extents)", matching the one variant `extract.rs` matches
on. -/
inductive LightOccluder2dShape where
  | Rectangle (half_size : Vec2)
deriving DecidableEq, Repr

/-- Modelled from the spec: the `LightOccluder2d` component carries its
shape (`src/occluder.rs` is not among the provided sources). -/
structure LightOccluder2d where
  shape : LightOccluder2dShape
deriving DecidableEq, Repr

/-! ## `src/render/extract.rs` — extracted record types -/

/-- The component `ExtractedPointLight2d` (`src/render/extract.rs`). -/
structure ExtractedPointLight2d where
  transform : Vec2
  radius : Rat
  color : LinearRgba
  intensity : Rat
  falloff : Rat
  cast_shadows : Nat
deriving DecidableEq, Repr

/-- The component `ExtractedSpotLight2d` (`src/render/extract.rs`). -/
structure ExtractedSpotLight2d where
  center : Vec2
  radius : Rat
  color : LinearRgba
  intensity : Rat
  falloff : Rat
  direction : Vec2
  inner_angle : Rat
  outer_angle : Rat
  source_width : Rat
  cast_shadows : Nat
deriving DecidableEq, Repr

/-- The component `ExtractedLightOccluder2d` (`src/render/extract.rs`). -/
structure ExtractedLightOccluder2d where
  half_size : Vec2
  center : Vec2
deriving DecidableEq, Repr

/-- The component `ExtractedAmbientLight2d` (`src/render/extract.rs`). -/
structure ExtractedAmbientLight2d where
  color : LinearRgba
deriving DecidableEq, Repr

/-! ## `src/render/extract.rs` — query rows and extraction systems

Each extraction system iterates an `Extract<Query<…>>`; a query is modelled as
the list of its result rows, and the system's output for the frame is the list
of `(render-entity id, record)` component insertions it issues via
`Commands`. -/

/-- One row of the query
`Query<(&RenderEntity, &PointLight2d, &GlobalTransform, &ViewVisibility)>`. -/
structure PointLightRow where
  render_entity : RenderEntity
  point_light : PointLight2d
  global_transform : GlobalTransform
  view_visibility : ViewVisibility
deriving DecidableEq, Repr

/-- One row of the query
`Query<(&RenderEntity, &SpotLight2d, &GlobalTransform, &ViewVisibility)>`. -/
structure SpotLightRow where
  render_entity : RenderEntity
  spot_light : SpotLight2d
  global_transform : GlobalTransform
  view_visibility : ViewVisibility
deriving DecidableEq, Repr

/-- One row of the query
`Query<(&RenderEntity, &LightOccluder2d, &GlobalTransform, &ViewVisibility)>`. -/
structure OccluderRow where
  render_entity : RenderEntity
  light_occluder : LightOccluder2d
  global_transform : GlobalTransform
  view_visibility : ViewVisibility
deriving DecidableEq, Repr

/-- One row of the query `Query<(&RenderEntity, &Light2d)>` (note: no
`ViewVisibility` term in this query). -/
structure AmbientRow where
  render_entity : RenderEntity
  light_2d : Light2d
deriving DecidableEq, Repr

/-- The `ExtractedPointLight2d` literal built in the body of the
`extract_point_lights` loop (`src/render/extract.rs`, lines 99–106). -/
def extractedPointLightOf (row : PointLightRow) : ExtractedPointLight2d :=
  { color := row.point_light.color.to_linear
    transform := row.global_transform.translation.xy
    radius := row.point_light.radius
    intensity := row.point_light.intensity
    falloff := row.point_light.falloff
    cast_shadows := if row.point_light.cast_shadows then 1 else 0 }

/-- The system `extract_point_lights` (`src/render/extract.rs`, lines 82–108): the loop
skips rows whose view-visibility flag is false (`continue`) and otherwise
inserts one `ExtractedPointLight2d` on the row's render entity. -/
def extract_point_lights (q : List PointLightRow) : List (Nat × ExtractedPointLight2d) :=
  q.filterMap fun row =>
    if row.view_visibility.get then
      some (row.render_entity.id, extractedPointLightOf row)
    else none

/-- The `ExtractedSpotLight2d` literal built in the body of the
`extract_spot_lights` loop (`src/render/extract.rs`, lines 50–67): direction,
inner and outer angle are converted from degrees to radians before the record
is built, and the direction angle is turned into a unit vector. -/
def extractedSpotLightOf (row : SpotLightRow) : ExtractedSpotLight2d :=
  { center := row.global_transform.translation.xy
    radius := row.spot_light.radius
    color := row.spot_light.color.to_linear
    intensity := row.spot_light.intensity
    falloff := row.spot_light.falloff
    direction := Vec2.from_angle (toRadians row.spot_light.direction)
    inner_angle := toRadians row.spot_light.inner_angle
    outer_angle := toRadians row.spot_light.outer_angle
    source_width := row.spot_light.source_width
    cast_shadows := if row.spot_light.cast_shadows then 1 else 0 }

/-- The system `extract_spot_lights` (`src/render/extract.rs`, lines 35–69): skips
invisible rows; converts direction, inner and outer angle from degrees to
radians, turns the direction angle into a unit vector, and inserts one
`ExtractedSpotLight2d` on the row's render entity. -/
def extract_spot_lights (q : List SpotLightRow) : List (Nat × ExtractedSpotLight2d) :=
  q.filterMap fun row =>
    if row.view_visibility.get then
      some (row.render_entity.id, extractedSpotLightOf row)
    else none

/-- The `ExtractedLightOccluder2d` literal built in the body of the
`extract_light_occluders` loop (`src/render/extract.rs`, lines 127–132) by
matching the occluder's shape. -/
def extractedOccluderOf (row : OccluderRow) : ExtractedLightOccluder2d :=
  match row.light_occluder.shape with
  | LightOccluder2dShape.Rectangle half_size =>
    { half_size := half_size
      center := row.global_transform.translation.xy }

/-- The system `extract_light_occluders` (`src/render/extract.rs`, lines 110–138): skips
invisible rows; matches the occluder's (rectangle) shape and inserts one
`ExtractedLightOccluder2d` on the row's render entity. -/
def extract_light_occluders (q : List OccluderRow) : List (Nat × ExtractedLightOccluder2d) :=
  q.filterMap fun row =>
    if row.view_visibility.get then
      some (row.render_entity.id, extractedOccluderOf row)
    else none

/-- The `ExtractedAmbientLight2d` literal built in the body of the
`extract_ambient_lights` loop (`src/render/extract.rs`, lines 147–149): the
ambient color converted to linear RGBA and multiplied by the ambient
brightness. -/
def extractedAmbientLightOf (row : AmbientRow) : ExtractedAmbientLight2d :=
  { color := (row.light_2d.ambient_light.color.to_linear).mulScalar
      row.light_2d.ambient_light.brightness }

/-- The system `extract_ambient_lights` (`src/render/extract.rs`, lines 140–151): for
every row — there is no visibility check in this query — inserts one
`ExtractedAmbientLight2d` whose color is the ambient color converted to linear
RGBA and multiplied by the ambient brightness. -/
def extract_ambient_lights (q : List AmbientRow) : List (Nat × ExtractedAmbientLight2d) :=
  q.map fun row => (row.render_entity.id, extractedAmbientLightOf row)

/-! ## Extraction systems as whole-world steps

The render world's extracted storage is frame-scoped (spec §5): the commands an
extraction system issues in a frame replace that frame's batch. A system reads
the main world through `Extract<Query<…>>` (immutable access) and writes only
the render-side storage. -/

/-- The main (simulation) world, restricted to the component data the four
extraction queries read. -/
structure MainWorld where
  point_lights : List PointLightRow
  spot_lights : List SpotLightRow
  light_occluders : List OccluderRow
  light_2ds : List AmbientRow
deriving DecidableEq, Repr

/-- The render world's frame-scoped extracted storage. -/
structure RenderWorld where
  extracted_point_lights : List (Nat × ExtractedPointLight2d)
  extracted_spot_lights : List (Nat × ExtractedSpotLight2d)
  extracted_light_occluders : List (Nat × ExtractedLightOccluder2d)
  extracted_ambient_lights : List (Nat × ExtractedAmbientLight2d)
deriving DecidableEq, Repr

/-- Both worlds together, as visible to an extraction system. -/
structure World where
  main : MainWorld
  render : RenderWorld
deriving DecidableEq, Repr

/-- The system `extract_point_lights` run as a whole-world step. -/
def extract_point_lights_system (w : World) : World :=
  { w with render :=
      { w.render with extracted_point_lights := extract_point_lights w.main.point_lights } }

/-- The system `extract_spot_lights` run as a whole-world step. -/
def extract_spot_lights_system (w : World) : World :=
  { w with render :=
      { w.render with extracted_spot_lights := extract_spot_lights w.main.spot_lights } }

/-- The system `extract_light_occluders` run as a whole-world step. -/
def extract_light_occluders_system (w : World) : World :=
  { w with render :=
      { w.render with extracted_light_occluders := extract_light_occluders w.main.light_occluders } }

/-- The system `extract_ambient_lights` run as a whole-world step. -/
def extract_ambient_lights_system (w : World) : World :=
  { w with render :=
      { w.render with extracted_ambient_lights := extract_ambient_lights w.main.light_2ds } }

/-- One frame's `ExtractSchedule`: all four extraction systems (their order is
irrelevant — each writes a distinct storage). -/
def extractSchedule (w : World) : World :=
  extract_ambient_lights_system
    (extract_light_occluders_system
      (extract_spot_lights_system
        (extract_point_lights_system w)))

/-! ## `src/render/lighting/pipeline.rs` — the lighting pipeline

GPU-side handle types (`BindGroupLayout`, `Sampler`, shader handles) are
external opaque resources; they are modelled as ids. The descriptor types
mirror the fields `specialize` fills in. -/

/-- Opaque GPU bind-group-layout handle. -/
structure BindGroupLayout where
  id : Nat
deriving DecidableEq, Repr

/-- Opaque GPU sampler handle. -/
structure Sampler where
  id : Nat
deriving DecidableEq, Repr

/-- Opaque shader-asset handle. -/
structure ShaderHandle where
  id : Nat
deriving DecidableEq, Repr

/-- The vertex-stage description obtained from `FullscreenShader`. -/
structure VertexState where
  shader : ShaderHandle
deriving DecidableEq, Repr

/-- Model of `bevy`'s `FullscreenShader` resource (a fixed full-screen vertex pass). -/
structure FullscreenShader where
  shader : ShaderHandle
deriving DecidableEq, Repr

/-- Model of `FullscreenShader::to_vertex_state()`. -/
def FullscreenShader.to_vertex_state (f : FullscreenShader) : VertexState := ⟨f.shader⟩

/-- The texture formats the sources mention (`wgpu::TextureFormat`, narrowed to
the values reachable here). -/
inductive TextureFormat where
  | Rgba16Float
  | Bgra8UnormSrgb
  | Rgba8UnormSrgb
deriving DecidableEq, Repr

/-- Model of `TextureFormat::bevy_default()` — the display's default output format. -/
def TextureFormat.bevy_default : TextureFormat := TextureFormat.Bgra8UnormSrgb

/-- Model of `ViewTarget::TEXTURE_FORMAT_HDR` — the higher-precision float format used
for HDR output. -/
def ViewTarget.TEXTURE_FORMAT_HDR : TextureFormat := TextureFormat.Rgba16Float

/-- Opaque blend-state description (the sources always pass `None`). -/
structure BlendState where
  id : Nat
deriving DecidableEq, Repr

/-- Model of the `wgpu::ColorWrites` bitflags. -/
structure ColorWrites where
  bits : Nat
deriving DecidableEq, Repr

/-- Model of `ColorWrites::ALL`. -/
def ColorWrites.ALL : ColorWrites := ⟨15⟩

/-- Model of `wgpu::ColorTargetState`. -/
structure ColorTargetState where
  format : TextureFormat
  blend : Option BlendState
  write_mask : ColorWrites
deriving DecidableEq, Repr

/-- The type `FragmentState` as filled in by `specialize`. -/
structure FragmentState where
  shader : ShaderHandle
  shader_defs : List String
  entry_point : Option String
  targets : List (Option ColorTargetState)
deriving DecidableEq, Repr

/-- Opaque primitive-state description (`PrimitiveState::default()`). -/
structure PrimitiveState where
  id : Nat
deriving DecidableEq, Repr

/-- Model of `PrimitiveState::default()`. -/
def PrimitiveState.default : PrimitiveState := ⟨0⟩

/-- Opaque depth/stencil description (the sources always pass `None`). -/
structure DepthStencilState where
  id : Nat
deriving DecidableEq, Repr

/-- Opaque multisample-state description (`MultisampleState::default()`). -/
structure MultisampleState where
  id : Nat
deriving DecidableEq, Repr

/-- Model of `MultisampleState::default()`. -/
def MultisampleState.default : MultisampleState := ⟨0⟩

/-- Opaque push-constant-range description (the sources pass an empty list). -/
structure PushConstantRange where
  id : Nat
deriving DecidableEq, Repr

/-- Model of `wgpu::RenderPipelineDescriptor`, with the fields `specialize` fills in. -/
structure RenderPipelineDescriptor where
  label : Option String
  layout : List BindGroupLayout
  vertex : VertexState
  fragment : Option FragmentState
  primitive : PrimitiveState
  depth_stencil : Option DepthStencilState
  multisample : MultisampleState
  push_constant_ranges : List PushConstantRange
  zero_initialize_workgroup_memory : Bool
deriving DecidableEq, Repr

/-- Model of `const LIGHTING_PIPELINE` (`src/render/lighting/pipeline.rs`). -/
def LIGHTING_PIPELINE : String := "lighting_pipeline"

/-- Modelled from the spec: `LIGHTING_SHADER` is defined in the lighting
module's `mod.rs`, which is not among the provided sources; it is the fixed
handle of the lighting fragment shader. -/
def LIGHTING_SHADER : ShaderHandle := ⟨1⟩

/-- Modelled from the spec: `LightingPipelineKey` is defined in the lighting
module's `mod.rs`, which is not among the provided sources; §4.3 gives
`Key = { outputIsHighDynamicRange: boolean }`, and `specialize` reads it as
`key.hdr`. -/
structure LightingPipelineKey where
  hdr : Bool
deriving DecidableEq, Repr

/-- The `LightingPipeline` resource (`src/render/lighting/pipeline.rs`). -/
structure LightingPipeline where
  layout : BindGroupLayout
  sampler : Sampler
  fullscreen_shader : FullscreenShader
deriving DecidableEq, Repr

/-- The function `LightingPipeline::specialize` (`src/render/lighting/pipeline.rs`, lines
55–80): builds the full-screen lighting pipeline descriptor; the color-target
format is the HDR float format when `key.hdr` holds, the display default
otherwise. -/
def LightingPipeline.specialize (self : LightingPipeline) (key : LightingPipelineKey) :
    RenderPipelineDescriptor :=
  { label := some LIGHTING_PIPELINE
    layout := [self.layout]
    vertex := self.fullscreen_shader.to_vertex_state
    fragment := some
      { shader := LIGHTING_SHADER
        shader_defs := []
        entry_point := some "fragment"
        targets := [some
          { format :=
              if key.hdr then ViewTarget.TEXTURE_FORMAT_HDR else TextureFormat.bevy_default
            blend := none
            write_mask := ColorWrites.ALL }] }
    primitive := PrimitiveState.default
    depth_stencil := none
    multisample := MultisampleState.default
    push_constant_ranges := []
    zero_initialize_workgroup_memory := false }

/-- Lookup in the pipeline cache's key → pipeline-id association. -/
def cacheLookup : List (LightingPipelineKey × Nat) → LightingPipelineKey → Option Nat
  | [], _ => none
  | (k, v) :: t, key => if k = key then some v else cacheLookup t key

/-- Modelled from the spec: the pipeline cache around `specialize` lives in the
host engine's `SpecializedRenderPipelines`, not among the provided sources.
§4.3: "specializing with a previously-seen key must return a cached pipeline
object without reissuing GPU pipeline-build work; specializing with a new key
performs the build once and caches it thereafter". `builds` logs every
descriptor build actually performed; `next_id` mints pipeline-object ids. -/
structure SpecializedRenderPipelines where
  cache : List (LightingPipelineKey × Nat)
  builds : List (LightingPipelineKey × RenderPipelineDescriptor)
  next_id : Nat
deriving DecidableEq, Repr

/-- Modelled from the spec (§4.3): cached specialization — return the cached
pipeline id for a previously-seen key; otherwise build the descriptor once via
`LightingPipeline::specialize`, cache it, and return the fresh id. -/
def SpecializedRenderPipelines.specialize (s : SpecializedRenderPipelines)
    (pipeline : LightingPipeline) (key : LightingPipelineKey) :
    Nat × SpecializedRenderPipelines :=
  match cacheLookup s.cache key with
  | some id => (id, s)
  | none =>
      (s.next_id,
        { cache := (key, s.next_id) :: s.cache
          builds := (key, pipeline.specialize key) :: s.builds
          next_id := s.next_id + 1 })

/-! ## Spec-modelled pieces of the per-pixel algorithm -/

/-- Modelled from the spec: the attenuation function of the per-pixel
illumination algorithm lives in the WGSL lighting shader, which is not among
the provided sources. §4.2: "let d = distance(P, light.position). If d ≥
light.radius, contribution is zero. Otherwise compute a smooth attenuation
A(d) …, whose decay rate is controlled by `falloff`"; the curve follows the
lisyarus formula referenced by the `PointLight2d` documentation in
`src/light.rs`. -/
def attenuation (light : PointLight2d) (d : Rat) : Rat :=
  let s := d / light.radius
  if 1 ≤ s then 0
  else (1 - s ^ 2) ^ 2 / (1 + light.falloff * s ^ 2)

/-- Modelled from the spec (§4.2): a point light's contribution to a pixel is
`light.color × light.intensity × A(d)`. -/
def pointLightContribution (light : PointLight2d) (d : Rat) : LinearRgba :=
  (light.color.to_linear).mulScalar (light.intensity * attenuation light d)

/-- Modelled from the spec (§3, §4.1): resolving an entity's world transform
"into the view's 2D space" — the world translation's xy relative to the view's
own 2D translation. -/
def viewResolvedPosition (view_translation : Vec2) (t : GlobalTransform) : Vec2 :=
  ⟨t.translation.x - view_translation.x, t.translation.y - view_translation.y⟩

/-! ## Helper lemmas

All four extraction loops share the shape "skip row unless a gate holds,
otherwise emit one `(key, value)` pair"; the lemmas below characterise the
batches such loops produce. -/

/-- Counting records for entity `e` in an extraction batch equals counting the
query rows that pass the gate and carry key `e`. -/
theorem countP_extract_shape {ρ σ : Type} (vis : ρ → Bool) (key : ρ → Nat) (val : ρ → σ)
    (q : List ρ) (e : Nat) :
    ((q.filterMap fun row => if vis row then some (key row, val row) else none).countP
        fun r => decide (r.1 = e))
      = q.countP fun row => vis row && decide (key row = e) := by
  induction q with
  | nil => rfl
  | cons a t ih =>
      by_cases h : vis a = true <;>
        simp [List.filterMap_cons, h, List.countP_cons, ih]

/-- In a query whose keys are pairwise distinct, the rows passing the gate and
carrying `row`'s key are exactly `row` itself when its gate holds, and nothing
otherwise. -/
theorem countP_key_nodup {ρ : Type} (vis : ρ → Bool) (key : ρ → Nat) (q : List ρ)
    (hnd : (q.map key).Nodup) (row : ρ) (hrow : row ∈ q) :
    (q.countP fun r => vis r && decide (key r = key row))
      = if vis row then 1 else 0 := by
  induction q with
  | nil => cases hrow
  | cons a t ih =>
      rw [List.map_cons, List.nodup_cons] at hnd
      rcases List.mem_cons.mp hrow with rfl | h
      · have ht : (t.countP fun r => vis r && decide (key r = key row)) = 0 := by
          apply List.countP_eq_zero.mpr
          intro b hb
          simp only [Bool.and_eq_true, decide_eq_true_eq, not_and]
          intro _ hk
          exact absurd (hk ▸ List.mem_map_of_mem key hb) hnd.1
        rw [List.countP_cons, ht]
        by_cases hv : vis row = true <;> simp [hv]
      · have hk : key a ≠ key row := by
          intro he
          exact hnd.1 (he ▸ List.mem_map_of_mem key h)
        rw [List.countP_cons, ih hnd.2 h]
        simp [hk]

/-- If every row of the query carrying key `e` fails the gate, no record for
`e` is produced. -/
theorem countP_no_visible {ρ : Type} (vis : ρ → Bool) (key : ρ → Nat) (q : List ρ) (e : Nat)
    (h : ∀ row ∈ q, key row = e → vis row = false) :
    (q.countP fun r => vis r && decide (key r = e)) = 0 := by
  apply List.countP_eq_zero.mpr
  intro a ha
  simp only [Bool.and_eq_true, decide_eq_true_eq, not_and]
  intro hv hk
  rw [h a ha hk] at hv
  cases hv

/-- Membership in an extraction batch: a record for entity `e` is present
exactly when some query row passes the gate, carries key `e` and produces the
record. -/
theorem mem_extract_shape {ρ σ : Type} (vis : ρ → Bool) (key : ρ → Nat) (val : ρ → σ)
    (q : List ρ) (e : Nat) (rec : σ) :
    ((e, rec) ∈ q.filterMap fun row => if vis row then some (key row, val row) else none)
      ↔ ∃ row, row ∈ q ∧ vis row = true ∧ key row = e ∧ val row = rec := by
  rw [List.mem_filterMap]
  constructor
  · rintro ⟨a, ha, hf⟩
    by_cases h : vis a = true
    · rw [if_pos h] at hf
      obtain ⟨hk, hv⟩ := Prod.mk.injEq .. ▸ Option.some.inj hf
      exact ⟨a, ha, h, hk, hv⟩
    · rw [if_neg h] at hf
      cases hf
  · rintro ⟨a, ha, hv, hk, hval⟩
    exact ⟨a, ha, by rw [if_pos hv, hk, hval]⟩

/-- Two rows of a key-distinct query with the same key are the same row. -/
theorem row_eq_of_key_eq {ρ : Type} (key : ρ → Nat) (q : List ρ)
    (hnd : (q.map key).Nodup) (r₁ r₂ : ρ) (h₁ : r₁ ∈ q) (h₂ : r₂ ∈ q)
    (hk : key r₁ = key r₂) : r₁ = r₂ :=
  List.inj_on_of_nodup_map hnd h₁ h₂ hk

/-- Record count in the point-light batch, as a count over the query. -/
theorem countP_extract_point_lights (q : List PointLightRow) (e : Nat) :
    (extract_point_lights q).countP (fun r => decide (r.1 = e))
      = q.countP fun row => row.view_visibility.get && decide (row.render_entity.id = e) := by
  rw [extract_point_lights]
  exact countP_extract_shape (fun row => row.view_visibility.get)
    (fun row => row.render_entity.id) extractedPointLightOf q e

/-- Record count in the spot-light batch, as a count over the query. -/
theorem countP_extract_spot_lights (q : List SpotLightRow) (e : Nat) :
    (extract_spot_lights q).countP (fun r => decide (r.1 = e))
      = q.countP fun row => row.view_visibility.get && decide (row.render_entity.id = e) := by
  rw [extract_spot_lights]
  exact countP_extract_shape (fun row => row.view_visibility.get)
    (fun row => row.render_entity.id) extractedSpotLightOf q e

/-- Record count in the occluder batch, as a count over the query. -/
theorem countP_extract_light_occluders (q : List OccluderRow) (e : Nat) :
    (extract_light_occluders q).countP (fun r => decide (r.1 = e))
      = q.countP fun row => row.view_visibility.get && decide (row.render_entity.id = e) := by
  rw [extract_light_occluders]
  exact countP_extract_shape (fun row => row.view_visibility.get)
    (fun row => row.render_entity.id) extractedOccluderOf q e

/-- Membership in the spot-light batch. -/
theorem mem_extract_spot_lights (q : List SpotLightRow) (e : Nat) (rec : ExtractedSpotLight2d) :
    ((e, rec) ∈ extract_spot_lights q)
      ↔ ∃ row, row ∈ q ∧ row.view_visibility.get = true ∧ row.render_entity.id = e
          ∧ extractedSpotLightOf row = rec := by
  rw [extract_spot_lights]
  exact mem_extract_shape (fun row => row.view_visibility.get)
    (fun row => row.render_entity.id) extractedSpotLightOf q e rec

/-- Membership in the point-light batch. -/
theorem mem_extract_point_lights (q : List PointLightRow) (e : Nat)
    (rec : ExtractedPointLight2d) :
    ((e, rec) ∈ extract_point_lights q)
      ↔ ∃ row, row ∈ q ∧ row.view_visibility.get = true ∧ row.render_entity.id = e
          ∧ extractedPointLightOf row = rec := by
  rw [extract_point_lights]
  exact mem_extract_shape (fun row => row.view_visibility.get)
    (fun row => row.render_entity.id) extractedPointLightOf q e rec

/-- Membership in the occluder batch. -/
theorem mem_extract_light_occluders (q : List OccluderRow) (e : Nat)
    (rec : ExtractedLightOccluder2d) :
    ((e, rec) ∈ extract_light_occluders q)
      ↔ ∃ row, row ∈ q ∧ row.view_visibility.get = true ∧ row.render_entity.id = e
          ∧ extractedOccluderOf row = rec := by
  rw [extract_light_occluders]
  exact mem_extract_shape (fun row => row.view_visibility.get)
    (fun row => row.render_entity.id) extractedOccluderOf q e rec

/-- The occluder record's center: whatever the occluder's shape, the loop body
stores the row's world translation xy. -/
theorem extractedOccluderOf_center (row : OccluderRow) :
    (extractedOccluderOf row).center = row.global_transform.translation.xy := by
  cases h : row.light_occluder.shape with
  | Rectangle half_size => simp [extractedOccluderOf, h]

/-- Membership in the ambient batch. -/
theorem mem_extract_ambient_lights (q : List AmbientRow) (e : Nat)
    (rec : ExtractedAmbientLight2d) :
    ((e, rec) ∈ extract_ambient_lights q)
      ↔ ∃ row, row ∈ q ∧ row.render_entity.id = e ∧ extractedAmbientLightOf row = rec := by
  rw [extract_ambient_lights, List.mem_map]
  constructor
  · rintro ⟨a, ha, hf⟩
    obtain ⟨hk, hv⟩ := Prod.mk.injEq .. ▸ hf.symm
    exact ⟨a, ha, hk.symm, hv.symm⟩
  · rintro ⟨a, ha, hk, hv⟩
    exact ⟨a, ha, by rw [hk, hv]⟩

/-! ## Concrete fixtures used in witness theorems -/

/-- A visible point light on render entity 1, world translation (3, 4, 5). -/
def wPointRowVisible : PointLightRow := ⟨⟨1⟩, PointLight2d.default, ⟨⟨3, 4, 5⟩⟩, ⟨true⟩⟩

/-- An invisible point light on render entity 2. -/
def wPointRowHidden : PointLightRow := ⟨⟨2⟩, PointLight2d.default, ⟨⟨6, 7, 8⟩⟩, ⟨false⟩⟩

/-- A visible spot light on render entity 3: direction 0°, inner angle 90°,
outer angle 180°, casting shadows. -/
def wSpotRow : SpotLightRow :=
  ⟨⟨3⟩, ⟨Color.WHITE, 1, 1/2, 0, 0, 90, 180, 1, true⟩, ⟨⟨1, 2, 0⟩⟩, ⟨true⟩⟩

/-- A visible rectangular occluder on render entity 4. -/
def wOccRow : OccluderRow :=
  ⟨⟨4⟩, ⟨LightOccluder2dShape.Rectangle ⟨5, 6⟩⟩, ⟨⟨0, 0, 0⟩⟩, ⟨true⟩⟩

/-- A camera on render entity 5 with a red ambient light of brightness 2. -/
def wAmbRow : AmbientRow := ⟨⟨5⟩, ⟨⟨⟨⟨1, 0, 0, 1⟩⟩, 2⟩⟩⟩

/-! ## The claims -/

/-- Claim C1: For every light or occluder entity whose current view-visibility
flag is true, extraction produces exactly one extracted record for that entity
in that frame's batch; for every entity whose view-visibility flag is false,
extraction produces no record for it in that frame's batch. (The hypotheses
state the ECS invariant that a query yields each render entity at most
once.) -/
theorem C1_visibility_gates_extraction
    (pq : List PointLightRow) (sq : List SpotLightRow) (oq : List OccluderRow)
    (hp : (pq.map fun r => r.render_entity.id).Nodup)
    (hs : (sq.map fun r => r.render_entity.id).Nodup)
    (ho : (oq.map fun r => r.render_entity.id).Nodup) :
    (∀ row ∈ pq,
      (extract_point_lights pq).countP (fun r => decide (r.1 = row.render_entity.id))
        = if row.view_visibility.get then 1 else 0)
    ∧ (∀ row ∈ sq,
      (extract_spot_lights sq).countP (fun r => decide (r.1 = row.render_entity.id))
        = if row.view_visibility.get then 1 else 0)
    ∧ (∀ row ∈ oq,
      (extract_light_occluders oq).countP (fun r => decide (r.1 = row.render_entity.id))
        = if row.view_visibility.get then 1 else 0) := by
  refine ⟨fun row hrow => ?_, fun row hrow => ?_, fun row hrow => ?_⟩
  · rw [countP_extract_point_lights]
    exact countP_key_nodup (fun r => r.view_visibility.get)
      (fun r => r.render_entity.id) pq hp row hrow
  · rw [countP_extract_spot_lights]
    exact countP_key_nodup (fun r => r.view_visibility.get)
      (fun r => r.render_entity.id) sq hs row hrow
  · rw [countP_extract_light_occluders]
    exact countP_key_nodup (fun r => r.view_visibility.get)
      (fun r => r.render_entity.id) oq ho row hrow

/-- Witness for C1: the visible point light (entity 1) yields exactly one
record, the invisible one (entity 2) yields none. -/
theorem C1_visibility_gates_extraction_witness :
    (extract_point_lights [wPointRowVisible, wPointRowHidden]).countP
        (fun r => decide (r.1 = 1)) = 1
    ∧ (extract_point_lights [wPointRowVisible, wPointRowHidden]).countP
        (fun r => decide (r.1 = 2)) = 0 := by
  have h := C1_visibility_gates_extraction [wPointRowVisible, wPointRowHidden]
    [wSpotRow] [wOccRow] (by decide) (by decide) (by decide)
  exact ⟨h.1 wPointRowVisible (List.mem_cons_self _ _),
    h.1 wPointRowHidden (List.mem_cons_of_mem _ (List.mem_cons_self _ _))⟩

/-- Claim C3: Extraction output is a full replacement of the previous frame's
batch: the frame's batch is a function of the current frame's query alone —
whatever the render-side storage held before — and an entity invisible in the
current frame has no record (stale or otherwise) in the current frame's
batch. -/
theorem C3_full_replacement (w : World) (e : Nat) :
    ((extractSchedule w).render.extracted_point_lights
        = extract_point_lights w.main.point_lights)
    ∧ ((extractSchedule w).render.extracted_light_occluders
        = extract_light_occluders w.main.light_occluders)
    ∧ ((∀ row ∈ w.main.point_lights,
          row.render_entity.id = e → row.view_visibility.get = false) →
        ((extractSchedule w).render.extracted_point_lights.countP
          (fun r => decide (r.1 = e))) = 0)
    ∧ ((∀ row ∈ w.main.light_occluders,
          row.render_entity.id = e → row.view_visibility.get = false) →
        ((extractSchedule w).render.extracted_light_occluders.countP
          (fun r => decide (r.1 = e))) = 0) := by
  refine ⟨rfl, rfl, fun h => ?_, fun h => ?_⟩
  · show (extract_point_lights w.main.point_lights).countP _ = 0
    rw [countP_extract_point_lights]
    exact countP_no_visible (fun r => r.view_visibility.get)
      (fun r => r.render_entity.id) w.main.point_lights e h
  · show (extract_light_occluders w.main.light_occluders).countP _ = 0
    rw [countP_extract_light_occluders]
    exact countP_no_visible (fun r => r.view_visibility.get)
      (fun r => r.render_entity.id) w.main.light_occluders e h

/-- A point-light record as a previous frame could have left it for entity 2. -/
def wStaleRecord : ExtractedPointLight2d := ⟨⟨6, 7⟩, 1/2, ⟨1, 1, 1, 1⟩, 1, 0, 0⟩

/-- A world whose render-side storage still holds `wStaleRecord` for entity 2
while entity 2 is invisible in the current frame. -/
def wStaleWorld : World :=
  ⟨⟨[wPointRowHidden], [], [], []⟩, ⟨[(2, wStaleRecord)], [], [], []⟩⟩

/-- Witness for C3: after extraction runs on `wStaleWorld`, the frame's batch
holds no record for the invisible entity 2, although the previous frame's
storage did. -/
theorem C3_full_replacement_witness :
    ((extractSchedule wStaleWorld).render.extracted_point_lights.countP
      (fun r => decide (r.1 = 2))) = 0 :=
  (C3_full_replacement wStaleWorld 2).2.2.1 (by decide)

/-- Claim C9: Extraction never mutates the simulation-side world: each extraction
system (and the whole extract schedule) leaves the main world — every light,
occluder, ambient, transform and visibility value it read — unchanged; it only
writes extracted records into render-side storage. -/
theorem C9_extraction_reads_only (w : World) :
    (extract_point_lights_system w).main = w.main
    ∧ (extract_spot_lights_system w).main = w.main
    ∧ (extract_light_occluders_system w).main = w.main
    ∧ (extract_ambient_lights_system w).main = w.main
    ∧ (extractSchedule w).main = w.main :=
  ⟨rfl, rfl, rfl, rfl, rfl⟩

/-- Claim C10: Ambient-light extraction is unconditional on visibility: its query
has no view-visibility term at all, the batch has one record per query row,
and every entity carrying the `Light2d` marker gets exactly one extracted
ambient record per frame. -/
theorem C10_ambient_extraction_unconditional (q : List AmbientRow)
    (hnd : (q.map fun r => r.render_entity.id).Nodup) :
    (extract_ambient_lights q).length = q.length
    ∧ ∀ row ∈ q,
        (extract_ambient_lights q).countP
          (fun r => decide (r.1 = row.render_entity.id)) = 1 := by
  constructor
  · rw [extract_ambient_lights]
    exact List.length_map _ _
  · intro row hrow
    rw [extract_ambient_lights, List.countP_map]
    have h := countP_key_nodup (fun _ => true) (fun r => r.render_entity.id) q hnd row hrow
    simpa [Function.comp] using h

/-- Witness for C10: the one `Light2d` camera (entity 5) yields exactly one
ambient record. -/
theorem C10_ambient_extraction_unconditional_witness :
    (extract_ambient_lights [wAmbRow]).length = 1
    ∧ (extract_ambient_lights [wAmbRow]).countP (fun r => decide (r.1 = 5)) = 1 := by
  have h := C10_ambient_extraction_unconditional [wAmbRow] (by decide)
  exact ⟨h.1, by simpa using h.2 wAmbRow (List.mem_cons_self _ _)⟩

/-- Claim C2: For every point light and every sample point at distance `d` from
the light's position, if `d ≥ radius` then the light's attenuation — and hence
its contribution to the pixel — is exactly 0 (the spec's invariant
`radius > 0` is assumed). -/
theorem C2_attenuation_zero_beyond_radius (light : PointLight2d) (d : Rat)
    (hr : 0 < light.radius) (hd : light.radius ≤ d) :
    attenuation light d = 0
    ∧ (pointLightContribution light d).red = 0
    ∧ (pointLightContribution light d).green = 0
    ∧ (pointLightContribution light d).blue = 0 := by
  have hs : 1 ≤ d / light.radius := (one_le_div hr).mpr hd
  have ha : attenuation light d = 0 := by
    rw [attenuation]
    exact if_pos hs
  refine ⟨ha, ?_, ?_, ?_⟩ <;>
    simp [pointLightContribution, LinearRgba.mulScalar, ha]

/-- Witness for C2: the default point light (radius ½) at distance 1. -/
theorem C2_attenuation_zero_beyond_radius_witness :
    (0 : Rat) < PointLight2d.default.radius
    ∧ PointLight2d.default.radius ≤ (1 : Rat)
    ∧ attenuation PointLight2d.default 1 = 0 :=
  ⟨by norm_num [PointLight2d.default], by norm_num [PointLight2d.default],
    (C2_attenuation_zero_beyond_radius PointLight2d.default 1
      (by norm_num [PointLight2d.default]) (by norm_num [PointLight2d.default])).1⟩

/-- The concrete transform used to refute C4: world translation (3, 4, 5). -/
def c4Transform : GlobalTransform := ⟨⟨3, 4, 5⟩⟩

/-- A visible point light on render entity 7 at `c4Transform`. -/
def c4Row : PointLightRow := ⟨⟨7⟩, PointLight2d.default, c4Transform, ⟨true⟩⟩

/-- Claim C4, counterexample: The claim says the extracted position is the world
transform resolved into the view's 2D space, "not a raw world-space position".
On the code, extraction applies no view transform at all: the extracted record
for the light at world translation (3, 4, 5) carries exactly the raw
world-space xy (3, 4), which differs from the view-space resolution for any
view whose 2D translation is non-zero, e.g. a view at (1, 0). -/
theorem C4_view_space_counterexample :
    ((extract_point_lights [c4Row]).map fun r => (r.1, r.2.transform)) = [(7, ⟨3, 4⟩)]
    ∧ viewResolvedPosition ⟨1, 0⟩ c4Transform ≠ (⟨3, 4⟩ : Vec2) := by
  constructor
  · rfl
  · intro h
    have hx := congrArg Vec2.x h
    simp only [viewResolvedPosition, c4Transform] at hx
    norm_num at hx

/-- Claim C4, amended: For every visible light or occluder entity, the position
field of its extracted record (`transform` for point lights, `center` for spot
lights and occluders) is the entity's raw world-space translation projected to
2D (its xy components); no view transform is applied during extraction. -/
theorem C4_position_is_world_space_xy
    (pq : List PointLightRow) (sq : List SpotLightRow) (oq : List OccluderRow)
    (prow : PointLightRow) (hprow : prow ∈ pq)
    (prec : ExtractedPointLight2d)
    (hprec : (prow.render_entity.id, prec) ∈ extract_point_lights pq)
    (hpnd : (pq.map fun r => r.render_entity.id).Nodup)
    (srow : SpotLightRow) (hsrow : srow ∈ sq)
    (srec : ExtractedSpotLight2d)
    (hsrec : (srow.render_entity.id, srec) ∈ extract_spot_lights sq)
    (hsnd : (sq.map fun r => r.render_entity.id).Nodup)
    (orow : OccluderRow) (horow : orow ∈ oq)
    (orec : ExtractedLightOccluder2d)
    (horec : (orow.render_entity.id, orec) ∈ extract_light_occluders oq)
    (hond : (oq.map fun r => r.render_entity.id).Nodup) :
    prec.transform = prow.global_transform.translation.xy
    ∧ srec.center = srow.global_transform.translation.xy
    ∧ orec.center = orow.global_transform.translation.xy := by
  refine ⟨?_, ?_, ?_⟩
  · obtain ⟨row, hrow, -, hk, hval⟩ := (mem_extract_point_lights pq _ prec).mp hprec
    obtain rfl := row_eq_of_key_eq (fun r => r.render_entity.id) pq hpnd row prow hrow hprow hk
    rw [← hval]
    rfl
  · obtain ⟨row, hrow, -, hk, hval⟩ := (mem_extract_spot_lights sq _ srec).mp hsrec
    obtain rfl := row_eq_of_key_eq (fun r => r.render_entity.id) sq hsnd row srow hrow hsrow hk
    rw [← hval]
    rfl
  · obtain ⟨row, hrow, -, hk, hval⟩ := (mem_extract_light_occluders oq _ orec).mp horec
    obtain rfl := row_eq_of_key_eq (fun r => r.render_entity.id) oq hond row orow hrow horow hk
    rw [← hval]
    exact extractedOccluderOf_center row

/-- Witness for the amended C4: the records extracted for `c4Row`, `wSpotRow`
and `wOccRow` carry the raw world xy of their entities' transforms. -/
theorem C4_position_is_world_space_xy_witness :
    (extractedPointLightOf c4Row).transform = c4Transform.translation.xy
    ∧ (extractedSpotLightOf wSpotRow).center = Vec3.xy ⟨1, 2, 0⟩
    ∧ (extractedOccluderOf wOccRow).center = Vec3.xy ⟨0, 0, 0⟩ := by
  have h := C4_position_is_world_space_xy [c4Row] [wSpotRow] [wOccRow]
    c4Row (List.mem_cons_self _ _) (extractedPointLightOf c4Row)
    (by rw [mem_extract_point_lights]
        exact ⟨c4Row, List.mem_cons_self _ _, rfl, rfl, rfl⟩)
    (by decide)
    wSpotRow (List.mem_cons_self _ _) (extractedSpotLightOf wSpotRow)
    (by rw [mem_extract_spot_lights]
        exact ⟨wSpotRow, List.mem_cons_self _ _, rfl, rfl, rfl⟩)
    (by decide)
    wOccRow (List.mem_cons_self _ _) (extractedOccluderOf wOccRow)
    (by rw [mem_extract_light_occluders]
        exact ⟨wOccRow, List.mem_cons_self _ _, rfl, rfl, rfl⟩)
    (by decide)
  exact h

/-- Claim C5: Specializing the lighting pipeline twice with an identical key
yields the same cached pipeline object rather than two distinct builds: the
second call returns the same pipeline id, leaves the cache state (including
the log of performed builds) untouched, and the first call performs at most
one build. -/
theorem C5_specialize_caches (s : SpecializedRenderPipelines)
    (p : LightingPipeline) (key : LightingPipelineKey) :
    ((s.specialize p key).2.specialize p key).1 = (s.specialize p key).1
    ∧ ((s.specialize p key).2.specialize p key).2 = (s.specialize p key).2
    ∧ (s.specialize p key).2.builds.length ≤ s.builds.length + 1 := by
  cases hlk : cacheLookup s.cache key <;>
    simp [SpecializedRenderPipelines.specialize, hlk, cacheLookup]

/-- Claim C6: For every specialization key, the output color-target format of
the produced pipeline descriptor is the HDR float format when the key's `hdr`
flag is true, and the display's default output format when it is false. -/
theorem C6_output_format_follows_hdr_flag (p : LightingPipeline)
    (key : LightingPipelineKey) :
    ((p.specialize key).fragment.map fun fs => fs.targets.map fun t => t.map fun c => c.format)
      = some [some (if key.hdr then ViewTarget.TEXTURE_FORMAT_HDR
          else TextureFormat.bevy_default)] := rfl

/-- Claim C7: For every view/camera carrying the `Light2d` lighting marker, the
extracted ambient record's color equals the ambient light's color converted to
linear RGB multiplied by the ambient brightness. -/
theorem C7_ambient_color_times_brightness (q : List AmbientRow)
    (row : AmbientRow) (hrow : row ∈ q)
    (rec : ExtractedAmbientLight2d)
    (hrec : (row.render_entity.id, rec) ∈ extract_ambient_lights q)
    (hnd : (q.map fun r => r.render_entity.id).Nodup) :
    rec.color = (row.light_2d.ambient_light.color.to_linear).mulScalar
        row.light_2d.ambient_light.brightness := by
  obtain ⟨row', hrow', hk, hval⟩ := (mem_extract_ambient_lights q _ rec).mp hrec
  obtain rfl := row_eq_of_key_eq (fun r => r.render_entity.id) q hnd row' row hrow' hrow hk
  rw [← hval]
  rfl

/-- Witness for C7: the red ambient light of brightness 2 on entity 5 yields
the record color (2, 0, 0, 1). -/
theorem C7_ambient_color_times_brightness_witness :
    (extractedAmbientLightOf wAmbRow).color
      = LinearRgba.mulScalar ⟨1, 0, 0, 1⟩ 2 := by
  have h := C7_ambient_color_times_brightness [wAmbRow] wAmbRow
    (List.mem_cons_self _ _) (extractedAmbientLightOf wAmbRow)
    (by rw [mem_extract_ambient_lights]
        exact ⟨wAmbRow, List.mem_cons_self _ _, rfl, rfl⟩)
    (by decide)
  exact h

/-- Claim C8: For every visible spot light, extraction converts the authored
`direction`, `inner_angle` and `outer_angle` from degrees to radians before
storing them in the extracted record: the stored `inner_angle` and
`outer_angle` are the radian conversions, and the stored `direction` is the
unit vector of the radian conversion of the authored direction angle. -/
theorem C8_spot_angles_converted_to_radians (q : List SpotLightRow)
    (row : SpotLightRow) (hrow : row ∈ q)
    (rec : ExtractedSpotLight2d)
    (hrec : (row.render_entity.id, rec) ∈ extract_spot_lights q)
    (hnd : (q.map fun r => r.render_entity.id).Nodup) :
    rec.inner_angle = toRadians row.spot_light.inner_angle
    ∧ rec.outer_angle = toRadians row.spot_light.outer_angle
    ∧ rec.direction = Vec2.from_angle (toRadians row.spot_light.direction) := by
  obtain ⟨row', hrow', -, hk, hval⟩ := (mem_extract_spot_lights q _ rec).mp hrec
  obtain rfl := row_eq_of_key_eq (fun r => r.render_entity.id) q hnd row' row hrow' hrow hk
  rw [← hval]
  exact ⟨rfl, rfl, rfl⟩

/-- Witness for C8: the spot light of `wSpotRow` (direction 0°, inner 90°,
outer 180°) is stored with radian angles. -/
theorem C8_spot_angles_converted_to_radians_witness :
    (extractedSpotLightOf wSpotRow).inner_angle = toRadians 90
    ∧ (extractedSpotLightOf wSpotRow).outer_angle = toRadians 180
    ∧ (extractedSpotLightOf wSpotRow).direction = Vec2.from_angle (toRadians 0) := by
  have h := C8_spot_angles_converted_to_radians [wSpotRow] wSpotRow
    (List.mem_cons_self _ _) (extractedSpotLightOf wSpotRow)
    (by rw [mem_extract_spot_lights]
        exact ⟨wSpotRow, List.mem_cons_self _ _, rfl, rfl, rfl⟩)
    (by decide)
  exact h

end BevyLight2d
